import Mathlib

/-!
Verification of the query-translation core of a small Python ORM
(the `models.py` / `database.py` pair).

The embedding is shallow and executable: Python strings are `String`,
Python values flowing through the filter translator are the inductive
`Value`, Python dicts used as keyword-argument maps are ordered
association lists, and each translated routine mirrors its source
line by line.  String helpers (`pySplit`, `pyReplace`, `pyStrip`, ...)
reimplement the exact Python `str` methods the source calls, using
structural recursion so all theorems reduce in the kernel.
-/

namespace PyOrm

/-- Python values as they occur in this code base: `None`, ints, bools,
strings, lists, dates and datetimes. -/
inductive Value where
  | none
  | int (n : Int)
  | bool (b : Bool)
  | str (s : String)
  | list (vs : List Value)
  | date (y m d : Int)
  | datetime (y m d h mi s : Int)

/-- `v is None` check used at the top of the filter loop. -/
def isNoneV : Value → Bool
  | .none => true
  | _ => false

/-- `isinstance(v, str)`. -/
def isStrV : Value → Bool
  | .str _ => true
  | _ => false

/-- Boolean prefix test on character lists. -/
def isPrefixList : List Char → List Char → Bool
  | [], _ => true
  | _ :: _, [] => false
  | a :: as, b :: bs => a == b && isPrefixList as bs

/-- Worker for `pySplit`.  The fuel bounds the number of consumed
characters, making the recursion structural (each step consumes at
least one character, so fuel = input length is always enough). -/
def splitGo (sep : List Char) : Nat → List Char → List Char → List (List Char)
  | _, [], acc => [acc.reverse]
  | 0, rest, acc => [acc.reverse ++ rest]
  | fuel + 1, c :: rest, acc =>
    if isPrefixList sep (c :: rest) then
      acc.reverse :: splitGo sep fuel (rest.drop (sep.length - 1)) []
    else
      splitGo sep fuel rest (c :: acc)

/-- Python `s.split(sep)` for a non-empty separator (the source only
splits on `"__"`, `"_"` and `" "`). -/
def pySplit (s sep : String) : List String :=
  if sep.toList.isEmpty then [s]
  else (splitGo sep.toList s.toList.length s.toList []).map (fun cs => String.mk cs)

/-- Join a list of strings with a separator (Python `sep.join(xs)`). -/
def joinWith (sep : String) : List String → String
  | [] => ""
  | [s] => s
  | s :: rest => s ++ sep ++ joinWith sep rest

/-- Python `s.replace(pat, repl)` for a non-empty pattern: a single
left-to-right pass over non-overlapping occurrences, which is exactly
split-then-join. -/
def pyReplace (s pat repl : String) : String :=
  joinWith repl (pySplit s pat)

/-- ASCII lower-casing of one character (what `str.lower` does on the
ASCII identifiers appearing here). -/
def pyLowerChar (c : Char) : Char :=
  if 65 ≤ c.toNat && c.toNat ≤ 90 then Char.ofNat (c.toNat + 32) else c

/-- ASCII upper-casing of one character. -/
def pyUpperChar (c : Char) : Char :=
  if 97 ≤ c.toNat && c.toNat ≤ 122 then Char.ofNat (c.toNat - 32) else c

/-- Python `s.lower()` (ASCII). -/
def pyLower (s : String) : String :=
  String.mk (s.toList.map pyLowerChar)

/-- Python `s.upper()` (ASCII). -/
def pyUpper (s : String) : String :=
  String.mk (s.toList.map pyUpperChar)

/-- Python substring containment `pat in s` for non-empty `pat`. -/
def strContains (s pat : String) : Bool :=
  1 < (pySplit s pat).length

/-- Python `s.startswith(p)`. -/
def strStartsWith (s p : String) : Bool :=
  isPrefixList p.toList s.toList

/-- Whitespace predicate of Python `str.strip` (the characters that can
actually occur here). -/
def pyIsSpace (c : Char) : Bool :=
  c == ' ' || c == '\t' || c == '\n' || c == '\r'

/-- Python `s.strip()`. -/
def pyStrip (s : String) : String :=
  String.mk (((s.toList.dropWhile pyIsSpace).reverse.dropWhile pyIsSpace).reverse)

/-- Python slice `s[a:b]` for `0 ≤ a ≤ b` (slicing never raises; short
strings just give short slices). -/
def pySlice (s : String) (a b : Nat) : String :=
  String.mk ((s.toList.drop a).take (b - a))

/-- Digit-accumulator for `pyIntOfString`. -/
def digitsToNatGo : List Char → Nat → Option Nat
  | [], acc => some acc
  | c :: rest, acc =>
    if c.isDigit then digitsToNatGo rest (acc * 10 + (c.toNat - 48)) else Option.none

/-- Parse a non-empty all-digit character list. -/
def digitsToNat : List Char → Option Nat
  | [] => Option.none
  | cs => digitsToNatGo cs 0

/-- Python `int(s)` on the plain decimal strings this code feeds it:
an optional sign followed by at least one digit; anything else raises
`ValueError`, modelled as `Option.none`. -/
def pyIntOfString (s : String) : Option Int :=
  match s.toList with
  | '-' :: rest => (digitsToNat rest).map (fun n => -(n : Int))
  | '+' :: rest => (digitsToNat rest).map (fun n => (n : Int))
  | cs => (digitsToNat cs).map (fun n => (n : Int))

/-- Zero-pad to two digits (for `str(datetime...)` renderings). -/
def pad2 (n : Int) : String :=
  if n < 10 then "0" ++ toString n else toString n

/-- Zero-pad to four digits. -/
def pad4 (n : Int) : String :=
  if n < 10 then "000" ++ toString n
  else if n < 100 then "00" ++ toString n
  else if n < 1000 then "0" ++ toString n
  else toString n

/-- Python `repr` of a scalar, as used when a list or tuple is
stringified (strings gain quotes).  Nested lists do not occur in this
code path. -/
def pyReprAtom : Value → String
  | .int n => toString n
  | .bool b => if b then "True" else "False"
  | .str s => "\x27" ++ s ++ "\x27"
  | .none => "None"
  | .list _ => ""
  | .date y m d => pad4 y ++ "-" ++ pad2 m ++ "-" ++ pad2 d
  | .datetime y m d h mi s =>
      pad4 y ++ "-" ++ pad2 m ++ "-" ++ pad2 d ++ " " ++ pad2 h ++ ":" ++ pad2 mi ++ ":" ++ pad2 s

/-- Python `str(tuple(vs))` (used by the non-parametrized `in` branch);
a one-element tuple prints with a trailing comma. -/
def pyTupleStr (vs : List Value) : String :=
  match vs with
  | [v] => "(" ++ pyReprAtom v ++ ",)"
  | _ => "(" ++ joinWith ", " (vs.map pyReprAtom) ++ ")"

/-- Python `str(v)` for the values that reach `%s` formatting here. -/
def pyStr : Value → String
  | .none => "None"
  | .int n => toString n
  | .bool b => if b then "True" else "False"
  | .str s => s
  | .list vs => "[" ++ joinWith ", " (vs.map pyReprAtom) ++ "]"
  | .date y m d => pad4 y ++ "-" ++ pad2 m ++ "-" ++ pad2 d
  | .datetime y m d h mi s =>
      pad4 y ++ "-" ++ pad2 m ++ "-" ++ pad2 d ++ " " ++ pad2 h ++ ":" ++ pad2 mi ++ ":" ++ pad2 s

/-- Python truthiness (`if v`, `if not v`). -/
def pyTruthy : Value → Bool
  | .none => false
  | .int n => n != 0
  | .bool b => b
  | .str s => !s.toList.isEmpty
  | .list vs => !vs.isEmpty
  | .date _ _ _ => true
  | .datetime _ _ _ _ _ _ => true

/-- Python `v.upper()`.  The source calls this only on strings (a
non-string would raise `AttributeError`); the translator branches that
use it are exercised with string values only. -/
def upperValue : Value → Value
  | .str s => .str (pyUpper s)
  | v => v

/-- `BaseDBClass._param_string` (src/database.py lines 188-195):
`"%" + "s"` when the backend class is psql or mssql, `"?"` otherwise
(sqlite, pyodbc and anything else). -/
def paramString (databaseClass : String) : String :=
  if databaseClass == "psql" || databaseClass == "mssql" then "%s" else "?"

/-- `BaseDBClass._encap_string` (src/database.py lines 197-206): the
identifier-quoting pair chosen from the backend-class string by
substring containment on its lower-casing. -/
def encapPair (databaseClass : String) : String × String :=
  if strContains (pyLower databaseClass) "mssql" then ("[", "]")
  else if strContains (pyLower databaseClass) "mysql" then ("\x60", "\x60")
  else ("\x22", "\x22")

/-- `BaseDBClass.encap_string` (src/database.py lines 208-218): wrap a
string in the quoting pair unless the matching end is already quoted.
(The source indexes `value[0]` / `value[-1]`, so it is only called on
non-empty strings.) -/
def encapString (databaseClass : String) (value : String) : String :=
  let p := encapPair databaseClass
  let v1 := if value.toList.head? != p.1.toList.head? then p.1 ++ value else value
  let v2 := if v1.toList.getLast? != p.2.toList.head? then v1 ++ p.2 else v1
  v2

/-- Ordered string-keyed dictionary (Python `dict` of strings). -/
abbrev Dict := List (String × String)

/-- Python `d.get(k)` returning `Option`. -/
def dlookup (m : Dict) (k : String) : Option String :=
  (m.find? (fun p => p.1 == k)).map (fun p => p.2)

/-- Python `d[k] = v`: overwrite in place if the key exists, else append
(insertion order preserved, as in CPython dicts). -/
def dinsert (m : Dict) (k v : String) : Dict :=
  if (m.find? (fun p => p.1 == k)).isSome then
    m.map (fun p => if p.1 == k then (k, v) else p)
  else m ++ [(k, v)]

/-- Python `fields.get(k)` on a keyword-argument dict of values
(`None` when absent). -/
def dictGetValue (fields : List (String × Value)) (k : String) : Value :=
  ((fields.find? (fun f => f.1 == k)).map (fun f => f.2)).getD .none

/-- Accumulator of `Objects._process_filters`: the emitted clause list
and the pending bound-value list (`self.where_values`). -/
structure FilterState where
  wheres : List String
  values : List Value

/-- One iteration of the loop in `Objects._process_filters`
(src/models.py lines 709-878) on the keyword pair `kv`.  `None` values
are skipped entirely (line 710).  The key is split on `"__"`; part 0 is
the field, part 1 the lookup function, part 2 the combining operator
(default `"and"`).  Values of lookups outside the five case-insensitive
functions are appended to the pending list before the branch runs
(lines 716-717); the branch then emits its clause fragment and possibly
appends further values, exactly as in the source, including the
swapped parametrized and non-parametrized formatting of `endswith` and
`iendswith` and the unconditional placeholder of the `length_*`
branches.  The second `iendswith` branch in the source (line 779) is
unreachable and therefore not repeated here. -/
def filterStep (databaseClass : String) (parametrized : Bool) (columnLookup : Dict)
    (st : FilterState) (kv : String × Value) : FilterState :=
  if isNoneV kv.2 then st
  else
    let v := kv.2
    let keyParts := pySplit kv.1 "__"
    let key0 := keyParts.headD ""
    let keyFunction : Option String := keyParts[1]?
    let keyOperator : String := (keyParts[2]?).getD "and"
    let isCaseFn :=
      keyFunction == some "iexact" || keyFunction == some "icontains" ||
      keyFunction == some "istartswith" || keyFunction == some "iendswith" ||
      keyFunction == some "contains"
    let preValues : List Value := if isCaseFn then [] else [v]
    let key := (dlookup columnLookup key0).getD key0
    let ps := paramString databaseClass
    let sv := pyStr v
    let n := toString sv.toList.length
    let branch : String × List Value :=
      match keyFunction with
      | some "iexact" =>
        if !parametrized then ("UPPER(" ++ key ++ ") = \x27" ++ pyStr (upperValue v) ++ "\x27", [])
        else ("UPPER(" ++ key ++ ") = " ++ ps, [upperValue v])
      | some "icontains" =>
        let appendval := Value.str ("%" ++ pyStr (upperValue v) ++ "%")
        if !parametrized then ("UPPER(" ++ key ++ ") LIKE \x27" ++ pyStr appendval ++ "\x27", [])
        else ("UPPER(" ++ key ++ ") LIKE " ++ ps, [appendval])
      | some "contains" =>
        let appendval := Value.str ("%" ++ pyStr v ++ "%")
        if !parametrized then (key ++ " LIKE \x27" ++ pyStr appendval ++ "\x27", [])
        else (key ++ " LIKE " ++ ps, [appendval])
      | some "startswith" =>
        if !parametrized then ("LEFT(" ++ key ++ ", " ++ n ++ ") = \x27" ++ sv ++ "\x27", [])
        else ("LEFT(" ++ key ++ ", " ++ n ++ ") = " ++ ps, [])
      | some "endswith" =>
        if !parametrized then ("RIGHT(" ++ key ++ ", " ++ n ++ ") = \x27" ++ ps ++ "\x27", [])
        else ("RIGHT(" ++ key ++ ", " ++ n ++ ") = " ++ sv, [])
      | some "iendswith" =>
        if !parametrized then
          ("UPPER(RIGHT(" ++ key ++ ", " ++ n ++ ")) = \x27" ++ ps ++ "\x27", [upperValue v])
        else ("UPPER(RIGHT(" ++ key ++ ", " ++ n ++ ")) = " ++ pyStr (upperValue v), [])
      | some "istartswith" =>
        if !parametrized then
          ("UPPER(LEFT(" ++ key ++ ", " ++ n ++ ")) = \x27" ++ pyStr (upperValue v) ++ "\x27", [])
        else ("UPPER(LEFT(" ++ key ++ ", " ++ n ++ ")) = " ++ ps, [upperValue v])
      | some "length_lt" => ("LENGTH(" ++ key ++ ") < " ++ ps, [v])
      | some "length_lte" => ("LENGTH(" ++ key ++ ") <= " ++ ps, [v])
      | some "length_gt" => ("LENGTH(" ++ key ++ ") > " ++ ps, [v])
      | some "length_gte" => ("LENGTH(" ++ key ++ ") >= " ++ ps, [v])
      | some "not_like" =>
        if !parametrized then (key ++ " NOT LIKE \x27" ++ sv ++ "\x27", [])
        else (key ++ " NOT LIKE " ++ ps, [])
      | some "isnull" =>
        (key ++ " " ++ (if pyTruthy v then "IS" else "IS NOT") ++ " NULL", [])
      | some "lt" =>
        if !parametrized then
          (if isStrV v then (key ++ " < \x27" ++ sv ++ "\x27", []) else (key ++ " < " ++ sv, []))
        else (key ++ " < " ++ ps, [])
      | some "lte" =>
        if !parametrized then
          (if isStrV v then (key ++ " <= \x27" ++ sv ++ "\x27", []) else (key ++ " <= " ++ sv, []))
        else (key ++ " <= " ++ ps, [])
      | some "gt" =>
        if !parametrized then
          (if isStrV v then (key ++ " > \x27" ++ sv ++ "\x27", []) else (key ++ " > " ++ sv, []))
        else (key ++ " > " ++ ps, [])
      | some "gte" =>
        if !parametrized then
          (if isStrV v then (key ++ " >= \x27" ++ sv ++ "\x27", []) else (key ++ " >= " ++ sv, []))
        else (key ++ " >= " ++ ps, [])
      | some "in" =>
        if !parametrized then
          (key ++ " IN " ++ (match v with | .list vs => pyTupleStr vs | w => pyStr w), [])
        else (key ++ " IN " ++ ps, [])
      | some "not_in" =>
        if !parametrized then
          (key ++ " NOT IN " ++ (match v with | .list vs => pyTupleStr vs | w => pyStr w), [])
        else (key ++ " NOT IN " ++ ps, [])
      | _ =>
        if !parametrized then
          (if isStrV v then (key ++ " = \x27" ++ sv ++ "\x27", []) else (key ++ " = " ++ sv, []))
        else (key ++ " = " ++ ps, [])
    let whereAppend := branch.1
    let pair : String × String :=
      if keyOperator != "" then
        let opParts := pySplit keyOperator "_"
        let opLen := opParts.length
        let kop := pyUpper (opParts.headD "")
        let second := pyUpper ((opParts[1]?).getD "")
        let action := if opLen > 2 then pyUpper ((opParts[2]?).getD "") else "START"
        if st.wheres.length > 0 then
          ( if opLen == 1 then kop ++ " " ++ whereAppend
            else if opLen == 2 then kop ++ " (" ++ whereAppend
            else if opLen == 3 && action == "END" then second ++ " " ++ whereAppend ++ ")"
            else "", "")
        else ("", whereAppend)
      else ("", whereAppend)
    let whereString := pair.1 ++ " " ++ pair.2
    { wheres := st.wheres ++ [whereString], values := st.values ++ preValues ++ branch.2 }

/-- `Objects._process_filters` (src/models.py lines 705-882): fold the
keyword arguments through `filterStep`, join the emitted clauses with
single spaces, collapse double spaces and strip; return the WHERE
string together with the pending bound-value list. -/
def processFilters (databaseClass : String) (parametrized : Bool) (columnLookup : Dict)
    (kwargs : List (String × Value)) : String × List Value :=
  let st := kwargs.foldl (filterStep databaseClass parametrized columnLookup) ⟨[], []⟩
  (pyStrip (pyReplace (joinWith " " st.wheres) "  " " "), st.values)

/-- Number of occurrences of a non-empty token in a string. -/
def countOccurrences (s pat : String) : Nat :=
  (pySplit s pat).length - 1

/-- Minimal `json.dumps` rendering of the scalars that occur in list
values here (dates would make `json.dumps` raise and do not occur). -/
def jsonAtom : Value → String
  | .int n => toString n
  | .bool b => if b then "true" else "false"
  | .str s => "\x22" ++ s ++ "\x22"
  | .none => "null"
  | _ => ""

/-- `json.dumps` of a list of scalars. -/
def jsonDumps (vs : List Value) : String :=
  "[" ++ joinWith ", " (vs.map jsonAtom) ++ "]"

/-- The `if isinstance(value, list): value = json.dumps(value)`
conversion used by `create` and `update`. -/
def convertListValue : Value → Value
  | .list vs => .str (jsonDumps vs)
  | v => v

/-- `Objects.create` (src/models.py lines 896-916): the INSERT statement
text and the bound-value list handed to `_db_query`. -/
def buildCreate (databaseClass table : String) (columnLookup : Dict)
    (fields : List (String × Value)) : String × List Value :=
  let insertFields :=
    fields.map (fun f => encapString databaseClass ((dlookup columnLookup f.1).getD f.1))
  let realInsertValues := fields.map (fun f => convertListValue f.2)
  let insertValues := fields.map (fun _ => paramString databaseClass)
  ("INSERT INTO " ++ encapString databaseClass table ++ " (" ++ joinWith "," insertFields ++
     ") VALUES (" ++ joinWith "," insertValues ++ ");",
   realInsertValues)

/-- `Objects.update` (src/models.py lines 920-940): the UPDATE statement
text and bound values.  The WHERE clause appends the literal text
`"=%s"` after the quoted primary-key column (hard-coded in the source
regardless of backend) and binds the primary-key value last. -/
def buildUpdate (databaseClass table pk : String) (columnLookup : Dict)
    (fields : List (String × Value)) : String × List Value :=
  let updateValues := fields.map (fun f =>
    encapString databaseClass ((dlookup columnLookup f.1).getD f.1) ++ "=" ++
      paramString databaseClass)
  let realInsertValues := fields.map (fun f => convertListValue f.2)
  ("UPDATE " ++ encapString databaseClass table ++ " SET " ++ joinWith "," updateValues ++
     " WHERE " ++ encapString databaseClass pk ++ "=%s;",
   realInsertValues ++ [dictGetValue fields pk])

/-- `Objects.delete` (src/models.py lines 946-956): the DELETE statement
text.  The primary-key value is interpolated into the statement via
`%s` string formatting and `_db_query` is called with no parameter
list. -/
def buildDelete (databaseClass table pk : String) (fields : List (String × Value)) : String :=
  "DELETE FROM " ++ encapString databaseClass table ++ " WHERE " ++
    encapString databaseClass pk ++ "=" ++ pyStr (dictGetValue fields pk) ++ ";"

/-- `BaseDBClass._db_query` commit condition (src/database.py lines
272-274): the session commits exactly when the upper-cased query starts
with INSERT or UPDATE. -/
def dbQueryCommits (query : String) : Bool :=
  strStartsWith (pyUpper query) "INSERT" || strStartsWith (pyUpper query) "UPDATE"

/-- Outcome of `Objects.get`. -/
inductive GetOutcome (α : Type) where
  | doesNotExist
  | multipleReturned
  | found (a : α)

/-- `Objects.get` (src/models.py lines 1040-1050) applied to the row
list its `filter` call returned: zero rows raise `ObjectDoesNotExist`,
two or more raise `MultipleObjectsReturned`, otherwise row 0 is
returned. -/
def getFromResults {α : Type} (results : List α) : GetOutcome α :=
  if results.length = 0 then .doesNotExist
  else if results.length > 1 then .multipleReturned
  else
    match results with
    | [] => .doesNotExist
    | a :: _ => .found a

/-- The physical column computed for one declared field in
`Objects.__init__` (src/models.py lines 497 and 519) in the plain
single-table, non-function case: the `db_field` (or the attribute name
when no `db_field` is declared) wrapped in the backend quoting pair. -/
def realColumn (databaseClass : String) (f : String × Option String) : String :=
  encapString databaseClass (f.2.getD f.1)

/-- Lines 551-552 of src/models.py: record one field in the two
class-level column maps (`column_lookup` and `column_lookup_reverse`). -/
def addFieldToMaps (databaseClass : String) (maps : Dict × Dict)
    (f : String × Option String) : Dict × Dict :=
  let rc := realColumn databaseClass f
  (dinsert maps.1 f.1 rc, dinsert maps.2 rc f.1)

/-- The defined-fields loop of `Objects.__init__` restricted to the map
updates: fold the declared fields into the two maps.  `init` is the
state of the class-level dictionaries before this construction (they
are shared across every `Objects` instance of the process). -/
def buildColumnMaps (databaseClass : String) (init : Dict × Dict)
    (fs : List (String × Option String)) : Dict × Dict :=
  fs.foldl (addFieldToMaps databaseClass) init

/-- The spec invariant for the pair of column maps: each is the inverse
of the other on every entry. -/
def mapsInverse (m : Dict × Dict) : Prop :=
  (∀ k v, dlookup m.1 k = some v → dlookup m.2 v = some k) ∧
  (∀ k v, dlookup m.2 k = some v → dlookup m.1 v = some k)

/-- Result of a `set_value` call on a field descriptor: either the
value finally stored in `self.value`, or a raised exception. -/
inductive SetValueResult where
  | stored (v : Value)
  | raised (msg : String)

/-- Leap-year rule used by `datetime` validation. -/
def isLeapYear (y : Int) : Bool :=
  y % 4 == 0 && (y % 100 != 0 || y % 400 == 0)

/-- Day count of a month, as `datetime.datetime` validates it. -/
def daysInMonth (y m : Int) : Int :=
  if m == 2 then (if isLeapYear y then 29 else 28)
  else if m == 4 || m == 6 || m == 9 || m == 11 then 30
  else 31

/-- Argument validation of `datetime.datetime(year, month, day)`. -/
def validDate (y m d : Int) : Bool :=
  decide (1 ≤ y) && decide (y ≤ 9999) && decide (1 ≤ m) && decide (m ≤ 12) &&
    decide (1 ≤ d) && decide (d ≤ daysInMonth y m)

/-- Argument validation of `datetime.time(hour, minute, second)`. -/
def validTime (h mi s : Int) : Bool :=
  decide (0 ≤ h) && decide (h ≤ 23) && decide (0 ≤ mi) && decide (mi ≤ 59) &&
    decide (0 ≤ s) && decide (s ≤ 59)

/-- `BaseDateTimeField.interpret_date` (src/models.py lines 147-156):
integer-parse the `YYYY`, `MM`, `DD` slices and build a date; a failed
`int(...)` or out-of-range `datetime.datetime(...)` raises, modelled as
`Option.none`.  The stray `print` is ignored. -/
def interpretDate (s : String) : Option (Int × Int × Int) :=
  match pyIntOfString (pySlice s 0 4), pyIntOfString (pySlice s 4 6),
      pyIntOfString (pySlice s 6 8) with
  | some y, some m, some d => if validDate y m d then some (y, m, d) else Option.none
  | _, _, _ => Option.none

/-- `BaseDateTimeField.interpret_time` (src/models.py lines 158-166):
`HH`, `MM` and, when the string has six characters, `SS`. -/
def interpretTime (s : String) : Option (Int × Int × Int) :=
  match pyIntOfString (pySlice s 0 2), pyIntOfString (pySlice s 2 4) with
  | some h, some mi =>
    match (if s.toList.length == 6 then pyIntOfString (pySlice s 4 6) else some 0) with
    | some sec => if validTime h mi sec then some (h, mi, sec) else Option.none
    | _ => Option.none
  | _, _ => Option.none

/-- `DateTimeField.process_value` (src/models.py lines 188-205).
`parseFn` abstracts the external `dateutil.parser.parse` on strings;
`parse` raises on every non-string argument.  On a parse failure the
`except` handler re-coerces only strings (split on a space, interpret
date and time); for any non-string value the handler body is skipped,
so the method returns with `self.value` still holding the raw value and
no exception. -/
def dateTimeProcessValue (parseFn : String → Option Value) (v : Value) : SetValueResult :=
  match v with
  | .str s =>
    match parseFn s with
    | some d => .stored d
    | Option.none =>
      match pySplit s " " with
      | [dateValue, timeValue] =>
        match interpretDate dateValue with
        | Option.none => .raised "ValueError"
        | some (y, m, d) =>
          match interpretTime timeValue with
          | Option.none => .raised "ValueError"
          | some (h, mi, sec) => .stored (.datetime y m d h mi sec)
      | _ => .raised "ValueError"
  | w => .stored w

/-- `Field.set_value` followed by `Field.check_value` for a
`DateTimeField` (src/models.py lines 58-67 with
`field_data_type = datetime.datetime`): `None` and datetime instances
are stored as-is; every other value goes through `process_value`. -/
def dateTimeSetValue (parseFn : String → Option Value) (v : Value) : SetValueResult :=
  match v with
  | .none => .stored .none
  | .datetime y m d h mi s => .stored (.datetime y m d h mi s)
  | w => dateTimeProcessValue parseFn w

/-! ## Helper lemmas -/

theorem dlookup_cons (p : String × String) (m : Dict) (k : String) :
    dlookup (p :: m) k = if p.1 == k then some p.2 else dlookup m k := by
  by_cases h : p.1 == k
  · simp [dlookup, List.find?, h]
  · simp [dlookup, List.find?, h]

theorem dlookup_append_single (m : Dict) (k v x : String) :
    dlookup (m ++ [(k, v)]) x =
      match dlookup m x with
      | some y => some y
      | Option.none => if k == x then some v else Option.none := by
  induction m with
  | nil =>
    show dlookup [(k, v)] x = _
    rw [dlookup_cons]
    rfl
  | cons p rest ih =>
    rw [List.cons_append, dlookup_cons, dlookup_cons]
    by_cases h : p.1 == x
    · simp [h]
    · simp [h, ih]

theorem dinsert_of_lookup_none (m : Dict) (k v : String)
    (h : dlookup m k = Option.none) : dinsert m k v = m ++ [(k, v)] := by
  have hf : m.find? (fun p => p.1 == k) = Option.none := by
    cases hf2 : m.find? (fun p => p.1 == k) with
    | none => rfl
    | some p => unfold dlookup at h; rw [hf2] at h; simp at h
  unfold dinsert
  rw [hf]
  simp

theorem dlookup_append_single_none (m : Dict) (k v x : String)
    (hx : dlookup m x = Option.none) (hne : k ≠ x) :
    dlookup (m ++ [(k, v)]) x = Option.none := by
  rw [dlookup_append_single, hx]
  simp [beq_iff_eq, hne]

theorem addFieldToMaps_inverse (databaseClass : String) (m : Dict × Dict)
    (f : String × Option String) (hm : mapsInverse m)
    (h1 : dlookup m.1 f.1 = Option.none)
    (h2 : dlookup m.2 (realColumn databaseClass f) = Option.none) :
    mapsInverse (addFieldToMaps databaseClass m f) := by
  obtain ⟨hfwd, hbwd⟩ := hm
  show mapsInverse
    (dinsert m.1 f.1 (realColumn databaseClass f), dinsert m.2 (realColumn databaseClass f) f.1)
  rw [dinsert_of_lookup_none _ _ _ h1, dinsert_of_lookup_none _ _ _ h2]
  constructor
  · intro k x hk
    rw [dlookup_append_single] at hk
    cases hmk : dlookup m.1 k with
    | some y =>
      rw [hmk] at hk
      have hy : y = x := Option.some.inj hk
      subst hy
      rw [dlookup_append_single, hfwd k y hmk]
    | none =>
      rw [hmk] at hk
      by_cases he : f.1 == k
      · rw [if_pos he] at hk
        have hx : realColumn databaseClass f = x := Option.some.inj hk
        subst hx
        rw [dlookup_append_single, h2, if_pos (by simp)]
        exact congrArg some (eq_of_beq he)
      · rw [if_neg he] at hk
        exact absurd hk (by simp)
  · intro k x hk
    rw [dlookup_append_single] at hk
    cases hmk : dlookup m.2 k with
    | some y =>
      rw [hmk] at hk
      have hy : y = x := Option.some.inj hk
      subst hy
      rw [dlookup_append_single, hbwd k y hmk]
    | none =>
      rw [hmk] at hk
      by_cases he : realColumn databaseClass f == k
      · rw [if_pos he] at hk
        have hx : f.1 = x := Option.some.inj hk
        subst hx
        rw [dlookup_append_single, h1, if_pos (by simp)]
        exact congrArg some (eq_of_beq he)
      · rw [if_neg he] at hk
        exact absurd hk (by simp)

theorem buildColumnMaps_inverse_go (databaseClass : String)
    (fs : List (String × Option String)) :
    ∀ (m : Dict × Dict), mapsInverse m →
      (∀ f ∈ fs, dlookup m.1 f.1 = Option.none) →
      (∀ f ∈ fs, dlookup m.2 (realColumn databaseClass f) = Option.none) →
      (fs.map Prod.fst).Nodup → (fs.map (realColumn databaseClass)).Nodup →
      mapsInverse (buildColumnMaps databaseClass m fs) := by
  induction fs with
  | nil => intro m hm _ _ _ _; exact hm
  | cons f rest ih =>
    intro m hm hA hC hnA hnC
    rw [List.map_cons, List.nodup_cons] at hnA hnC
    have hAf := hA f (List.mem_cons_self f rest)
    have hCf := hC f (List.mem_cons_self f rest)
    show mapsInverse (buildColumnMaps databaseClass (addFieldToMaps databaseClass m f) rest)
    apply ih
    · exact addFieldToMaps_inverse databaseClass m f hm hAf hCf
    · intro g hg
      show dlookup (dinsert m.1 f.1 (realColumn databaseClass f)) g.1 = Option.none
      rw [dinsert_of_lookup_none _ _ _ hAf]
      refine dlookup_append_single_none _ _ _ _ (hA g (List.mem_cons_of_mem f hg)) ?_
      intro he
      exact hnA.1 (he ▸ List.mem_map_of_mem Prod.fst hg)
    · intro g hg
      show dlookup (dinsert m.2 (realColumn databaseClass f) f.1)
        (realColumn databaseClass g) = Option.none
      rw [dinsert_of_lookup_none _ _ _ hCf]
      refine dlookup_append_single_none _ _ _ _ (hC g (List.mem_cons_of_mem f hg)) ?_
      intro he
      exact hnC.1 (he ▸ List.mem_map_of_mem (realColumn databaseClass) hg)
    · exact hnA.2
    · exact hnC.2

theorem foldl_filterStep_skips_none (databaseClass : String) (parametrized : Bool)
    (columnLookup : Dict) (kwargs : List (String × Value)) :
    ∀ st : FilterState,
      kwargs.foldl (filterStep databaseClass parametrized columnLookup) st =
        (kwargs.filter (fun kv => !isNoneV kv.2)).foldl
          (filterStep databaseClass parametrized columnLookup) st := by
  induction kwargs with
  | nil => intro st; rfl
  | cons kv rest ih =>
    intro st
    by_cases h : isNoneV kv.2
    · have hstep : filterStep databaseClass parametrized columnLookup st kv = st := by
        unfold filterStep
        rw [if_pos h]
      rw [List.foldl_cons, hstep, List.filter_cons, if_neg (by simp [h])]
      exact ih st
    · rw [List.foldl_cons, List.filter_cons, if_pos (by simp [h]), List.foldl_cons]
      exact ih _

/-! ## Claim theorems -/

/-- C1: the claim states that in parametrized mode the number of
placeholder tokens always equals the number of pending bound values,
including for `endswith`, `isnull` and the `length_*` lookups.  The
code violates this: `endswith` pre-appends the value but inlines it
into the SQL text instead of a placeholder (the parametrized and
non-parametrized format strings are swapped in the source), `isnull`
pre-appends the flag value while emitting a clause with no placeholder,
and each `length_*` lookup appends its value twice for a single
placeholder.  This theorem evaluates the translator at the three
failing inputs on the embedded backend. -/
theorem endswith_isnull_length_param_mismatch :
    processFilters "sqlite" true [] [("name__endswith", .str "x")] =
      ("RIGHT(name, 1) = x", [.str "x"]) ∧
    countOccurrences "RIGHT(name, 1) = x" "?" = 0 ∧
    processFilters "sqlite" true [] [("name__isnull", .bool true)] =
      ("name IS NULL", [.bool true]) ∧
    countOccurrences "name IS NULL" "?" = 0 ∧
    processFilters "sqlite" true [] [("name__length_lt", .int 5)] =
      ("LENGTH(name) < ?", [.int 5, .int 5]) ∧
    countOccurrences "LENGTH(name) < ?" "?" = 1 :=
  ⟨rfl, rfl, rfl, rfl, rfl, rfl⟩

/-- C2 counterexample: with the exact keyword keys of the claim
(`a`, `b__or_and`, `c__and_end`) the two-segment suffixes land in the
lookup-function slot of the `field__function__operator` split, fall
back to plain equality, and no group is opened: the produced clause is
`a = ? AND b = ? AND c = ?`, not the claimed
`a = ? OR (b = ? AND c = ?)`. -/
theorem grouping_two_segment_keys_not_grouped :
    processFilters "sqlite" true []
      [("a", .int 1), ("b__or_and", .int 2), ("c__and_end", .int 3)] =
      ("a = ? AND b = ? AND c = ?", [.int 1, .int 2, .int 3]) ∧
    ("a = ? AND b = ? AND c = ?" : String) ≠ "a = ? OR (b = ? AND c = ?)" :=
  ⟨rfl, by decide⟩

/-- C2 amended: the operator suffix occupies the third
double-underscore segment, so the grouping example needs an explicit
(possibly unrecognized, hence equality) function segment: the keys
`a`, `b__eq__or_and`, `c__eq__or_and_end` produce exactly
`a = ? OR (b = ? AND c = ?)` with parameters `[1, 2, 3]`. -/
theorem grouping_with_function_segment :
    processFilters "sqlite" true []
      [("a", .int 1), ("b__eq__or_and", .int 2), ("c__eq__or_and_end", .int 3)] =
      ("a = ? OR (b = ? AND c = ?)", [.int 1, .int 2, .int 3]) := rfl

/-- C3: on the embedded backend in parametrized mode, with unmapped
field names, `filter(name__icontains="bob", age__gte=21)` produces the
WHERE clause `UPPER(name) LIKE ? AND age >= ?` with the parameter list
`["%BOB%", 21]` in that order. -/
theorem icontains_gte_clause :
    processFilters "sqlite" true []
      [("name__icontains", .str "bob"), ("age__gte", .int 21)] =
      ("UPPER(name) LIKE ? AND age >= ?", [.str "%BOB%", .int 21]) := rfl

/-- C4: `get` applied to the rows its `filter` call returned yields the
single row when there is exactly one, the does-not-exist outcome on
zero rows, and the multiple-objects outcome on two or more rows. -/
theorem getFromResults_spec {α : Type} (results : List α) :
    (results.length = 0 → getFromResults results = .doesNotExist) ∧
    (∀ a, results = [a] → getFromResults results = .found a) ∧
    (2 ≤ results.length → getFromResults results = .multipleReturned) := by
  refine ⟨?_, ?_, ?_⟩
  · intro h
    have he : results = [] := List.length_eq_zero.mp h
    subst he; rfl
  · intro a h
    subst h; rfl
  · intro h
    match results, h with
    | a :: b :: rest, _ => simp [getFromResults]

/-- C4 witness: the three outcomes at concrete row lists. -/
theorem getFromResults_spec_witness :
    getFromResults ([] : List Nat) = .doesNotExist ∧
    getFromResults [7] = GetOutcome.found 7 ∧
    getFromResults [7, 8] = .multipleReturned :=
  ⟨(getFromResults_spec ([] : List Nat)).1 rfl,
   (getFromResults_spec [7]).2.1 7 rfl,
   (getFromResults_spec [7, 8]).2.2 (by decide)⟩

/-- C5 counterexample: the pyodbc backend class — one of the two
tabular-server driver variants, a network backend — receives the same
placeholder `?` as the embedded sqlite backend, so the placeholder of
the network backends is not always distinct from the embedded one. -/
theorem param_string_pyodbc_eq_sqlite :
    paramString "pyodbc" = paramString "sqlite" ∧ paramString "pyodbc" = "?" := ⟨rfl, rfl⟩

/-- C5 amended: the placeholder is a pure function of the backend-class
tag; the embedded backend and the pyodbc driver variant use `?`, while
the psql and mssql backend classes use `%s`. -/
theorem param_string_by_backend :
    paramString "sqlite" = "?" ∧ paramString "psql" = "%s" ∧
    paramString "mssql" = "%s" ∧ paramString "pyodbc" = "?" :=
  ⟨rfl, rfl, rfl, rfl⟩

/-- C6 counterexample: the psql backend class (the strict-relational
network server) receives the double-quote pair, not brackets, and
neither tabular-server driver path (mssql, pyodbc) receives the
backtick pair — brackets go to mssql and pyodbc falls to the default
double quotes. -/
theorem encap_families_mismatch :
    encapPair "psql" ≠ ("[", "]") ∧
    encapPair "mssql" ≠ ("\x60", "\x60") ∧
    encapPair "pyodbc" ≠ ("\x60", "\x60") ∧
    encapPair "psql" = ("\x22", "\x22") ∧
    encapPair "mssql" = ("[", "]") ∧
    encapPair "pyodbc" = ("\x22", "\x22") := by
  refine ⟨by decide, by decide, by decide, rfl, rfl, rfl⟩

/-- C6 amended: quoting is decided by substring containment on the
backend-class tag: a class containing `mssql` gets the bracket pair, a
class containing `mysql` (none of the four tags used by this code base)
gets the backtick pair, and every other class — sqlite, psql and
pyodbc included — gets the double-quote pair. -/
theorem encap_by_backend :
    encapPair "sqlite" = ("\x22", "\x22") ∧
    encapPair "psql" = ("\x22", "\x22") ∧
    encapPair "mssql" = ("[", "]") ∧
    encapPair "pyodbc" = ("\x22", "\x22") ∧
    encapPair "MySQLdb" = ("\x60", "\x60") :=
  ⟨rfl, rfl, rfl, rfl, rfl⟩

/-- C7 counterexample: `delete` interpolates the primary-key value
directly into the statement text (`"ID"=5` below), passes no parameter
list, and its DELETE statement does not satisfy the commit condition of
`_db_query`, which commits only for INSERT and UPDATE. -/
theorem delete_inlines_pk_and_no_commit :
    buildDelete "sqlite" "t" "ID" [("ID", .int 5)] =
      "DELETE FROM \x22t\x22 WHERE \x22ID\x22=5;" ∧
    dbQueryCommits "DELETE FROM \x22t\x22 WHERE \x22ID\x22=5;" = false :=
  ⟨rfl, rfl⟩

/-- C7 amended: `create` and `update` build parametrized statements —
every value, including the primary-key value in `update`'s WHERE
clause, is bound as a parameter — and both trigger a commit; `delete`
instead inlines the primary-key value into the SQL text, binds nothing,
and does not trigger a commit. -/
theorem crud_statement_generation :
    buildCreate "sqlite" "t" [] [("a", .int 1), ("b", .str "x")] =
      ("INSERT INTO \x22t\x22 (\x22a\x22,\x22b\x22) VALUES (?,?);", [.int 1, .str "x"]) ∧
    dbQueryCommits "INSERT INTO \x22t\x22 (\x22a\x22,\x22b\x22) VALUES (?,?);" = true ∧
    buildUpdate "sqlite" "t" "ID" [] [("a", .int 1), ("ID", .int 5)] =
      ("UPDATE \x22t\x22 SET \x22a\x22=?,\x22ID\x22=? WHERE \x22ID\x22=%s;",
        [.int 1, .int 5, .int 5]) ∧
    dbQueryCommits "UPDATE \x22t\x22 SET \x22a\x22=?,\x22ID\x22=? WHERE \x22ID\x22=%s;" = true ∧
    buildDelete "sqlite" "t" "ID" [("ID", .int 5)] =
      "DELETE FROM \x22t\x22 WHERE \x22ID\x22=5;" ∧
    dbQueryCommits "DELETE FROM \x22t\x22 WHERE \x22ID\x22=5;" = false :=
  ⟨rfl, rfl, rfl, rfl, rfl, rfl⟩

/-- C8: the claim says a non-coercible value always raises a coercion
error that propagates.  For a `DateTimeField`, any non-string,
non-datetime value (here the integer 5, which `dateutil.parser.parse`
rejects) is silently kept: the `except` handler re-coerces only
strings, so `set_value(5)` returns normally with the raw value stored,
for every possible behaviour of the external string parser. -/
theorem dateTimeSetValue_swallows_nonstring (parseFn : String → Option Value) :
    dateTimeSetValue parseFn (.int 5) = .stored (.int 5) := rfl

/-- C8 witness at a concrete parser. -/
theorem dateTimeSetValue_swallows_nonstring_witness :
    dateTimeSetValue (fun _ => Option.none) (.int 5) = .stored (.int 5) :=
  dateTimeSetValue_swallows_nonstring (fun _ => Option.none)

/-- C9 counterexample: the two column maps are class-level shared
dictionaries, so two logical fields bound to the same physical column
(here `alpha` and `beta` both mapped to column `c`) leave the forward
map with two entries whose shared value reverses to only the later
name, breaking the inverse property. -/
theorem columnMaps_collision_not_inverse :
    ¬ mapsInverse (buildColumnMaps "sqlite" ([], [])
        [("alpha", some "c"), ("beta", some "c")]) := by
  intro h
  have h2 := h.1 "alpha" "\x22c\x22" (by decide)
  have h3 : dlookup (buildColumnMaps "sqlite" ([], [])
      [("alpha", some "c"), ("beta", some "c")]).2 "\x22c\x22" = some "beta" := by decide
  rw [h2] at h3
  exact absurd h3 (by decide)

/-- C9 amended: the logical-to-physical and physical-to-logical column
maps are inverses of each other on every entry provided all logical
attribute names and all computed physical columns inserted so far are
pairwise distinct; since the maps are class-level and accumulate across
every `Objects` construction in the process, the field list here stands
for the concatenation of all constructions, and the invariant holds
exactly as long as no physical column is reused under a different
logical name. -/
theorem buildColumnMaps_inverse (databaseClass : String)
    (fs : List (String × Option String))
    (h1 : (fs.map Prod.fst).Nodup) (h2 : (fs.map (realColumn databaseClass)).Nodup) :
    mapsInverse (buildColumnMaps databaseClass ([], []) fs) := by
  refine buildColumnMaps_inverse_go databaseClass fs ([], []) ⟨?_, ?_⟩ ?_ ?_ h1 h2
  · intro k v h
    exact absurd h (by simp [dlookup])
  · intro k v h
    exact absurd h (by simp [dlookup])
  · intro f _; rfl
  · intro f _; rfl

/-- C9 witness: two distinct fields on the embedded backend. -/
theorem buildColumnMaps_inverse_witness :
    (([("a", some "X"), ("b", Option.none)] :
        List (String × Option String)).map Prod.fst).Nodup ∧
    (([("a", some "X"), ("b", Option.none)] :
        List (String × Option String)).map (realColumn "sqlite")).Nodup ∧
    mapsInverse (buildColumnMaps "sqlite" ([], [])
      [("a", some "X"), ("b", Option.none)]) :=
  ⟨by decide, by decide,
   buildColumnMaps_inverse "sqlite" [("a", some "X"), ("b", Option.none)]
     (by decide) (by decide)⟩

/-- C10: a keyword lookup whose value is `None` contributes neither a
WHERE fragment nor a bound parameter: the translator produces exactly
the output it produces on the argument list with the `None`-valued
entries removed, for every backend class, mode, column map and argument
list. -/
theorem processFilters_skips_none (databaseClass : String) (parametrized : Bool)
    (columnLookup : Dict) (kwargs : List (String × Value)) :
    processFilters databaseClass parametrized columnLookup kwargs =
      processFilters databaseClass parametrized columnLookup
        (kwargs.filter (fun kv => !isNoneV kv.2)) := by
  unfold processFilters
  rw [foldl_filterStep_skips_none]

/-- C10 witness at a concrete argument list containing a None value. -/
theorem processFilters_skips_none_witness :
    processFilters "sqlite" true [] [("a", Value.int 1), ("b", Value.none)] =
      processFilters "sqlite" true []
        ([("a", Value.int 1), ("b", Value.none)].filter (fun kv => !isNoneV kv.2)) :=
  processFilters_skips_none "sqlite" true [] [("a", Value.int 1), ("b", Value.none)]

end PyOrm
